/-
Verification of the 0xNetworth workflow service against its specification.

The development shallowly embeds the Python sources of
`src/workflow-service/` (models.py, tools/youtube_tool.py, the four
agents, and the `/process` orchestration in main.py) as executable Lean
definitions and proves or refutes the frozen claims about them.

Conventions of the embedding:
* Python strings are Lean `String`s / `List Char`; the embedding is
  restricted to ASCII inputs, where Python's `str.isalnum` coincides
  with `Char.isAlphanum`.
* Python floats are embedded as rationals (`ℚ`); `int()` is truncation
  toward zero.  Float *formatting* (`:,.2f`, `repr`) is not embedded:
  prompt builders take the formatting functions as explicit parameters.
* External collaborators (the YouTube transcript library and the LLM
  provider) are modelled as oracle data supplied in an `Env` record:
  each external call's outcome is an `Except`/`Option` value.
* Raised Python exceptions become `Except` error values carrying the
  exception's message (and, for the transcript library, its kind).
-/
import Mathlib

namespace Networth

/-! ## tools/youtube_tool.py — `extract_video_id`

The resolver applies `re.search` with two patterns in order:
  1. `(?:youtube\.com\/watch\?v=|youtu\.be\/|youtube\.com\/embed\/)([a-zA-Z0-9_-]{11})`
  2. `youtube\.com\/watch\?.*v=([a-zA-Z0-9_-]{11})`
and otherwise returns the input unchanged when
`len(url) == 11 and url.replace('-','').replace('_','').isalnum()`,
else raises `ValueError`.

`re.search` is embedded directly: scan start positions left to right; at
each position try the pattern; the first full match wins.  `.` does not
match a newline; `.*` is greedy (largest extent that still lets the rest
of the pattern match). -/

/-- One character of the capture class `[a-zA-Z0-9_-]`. -/
def isIdChar (c : Char) : Bool := c.isAlphanum || c == '-' || c == '_'

/-- Match `([a-zA-Z0-9_-]{11})` at the start of `s`, returning the capture. -/
def grab11 (s : List Char) : Option (List Char) :=
  let t := s.take 11
  if t.length == 11 && t.all isIdChar then some t else none

/-- Match a literal prefix followed by the 11-character capture group. -/
def tryLit (pre s : List Char) : Option (List Char) :=
  if pre.isPrefixOf s then grab11 (s.drop pre.length) else none

/-- Pattern 1 anchored at the current position: the three alternatives of
`(?:youtube\.com\/watch\?v=|youtu\.be\/|youtube\.com\/embed\/)` tried in
order, each followed by the capture group.  The alternatives are mutually
exclusive as literals, so this ordered trial is regex backtracking. -/
def p1At (s : List Char) : Option (List Char) :=
  (tryLit "youtube.com/watch?v=".toList s).orElse fun _ =>
    (tryLit "youtu.be/".toList s).orElse fun _ =>
      tryLit "youtube.com/embed/".toList s

/-- `v=([a-zA-Z0-9_-]{11})` anchored at the current position. -/
def vEqGrab : List Char → Option (List Char)
  | 'v' :: '=' :: rest => grab11 rest
  | _ => none

/-- Greedy `.*v=([a-zA-Z0-9_-]{11})` anchored at the current position:
`.*` cannot cross a newline and prefers the largest extent, i.e. the
last `v=`-match inside the newline-free region wins. -/
def p2Star : List Char → Option (List Char)
  | [] => vEqGrab []
  | c :: rest =>
    if c == '\n' then vEqGrab (c :: rest)
    else (p2Star rest).orElse fun _ => vEqGrab (c :: rest)

/-- Pattern 2 anchored at the current position:
`youtube\.com\/watch\?.*v=([a-zA-Z0-9_-]{11})`. -/
def p2At (s : List Char) : Option (List Char) :=
  if "youtube.com/watch?".toList.isPrefixOf s then
    p2Star (s.drop "youtube.com/watch?".toList.length)
  else none

/-- `re.search`: try the anchored pattern at each start position, left to
right; the leftmost full match wins. -/
def searchWith (f : List Char → Option (List Char)) : List Char → Option (List Char)
  | [] => f []
  | c :: rest => (f (c :: rest)).orElse fun _ => searchWith f rest

/-- Python `s.isalnum()`: non-empty and every character alphanumeric
(ASCII fragment). -/
def pyIsAlnum (s : List Char) : Bool := !s.isEmpty && s.all Char.isAlphanum

/-- `extract_video_id` (tools/youtube_tool.py, lines 9–25).  `ValueError`
becomes `Except.error` carrying the exception message. -/
def extract_video_id (url : List Char) : Except String (List Char) :=
  match searchWith p1At url with
  | some v => .ok v
  | none =>
    match searchWith p2At url with
    | some v => .ok v
    | none =>
      if url.length == 11 && pyIsAlnum (url.filter fun c => !(c == '-' || c == '_')) then
        .ok url
      else
        .error ("Invalid YouTube URL or video ID: " ++ String.mk url)

/-! ## models.py — value objects

Pydantic models become plain structures.  Floats (`quantity`, `value`,
`total_value`, `confidence`) are embedded as `ℚ`; the `ge=0.0, le=1.0`
bound on `confidence` is a validation constraint of the schema, not of
the structure itself, so it is not baked into the type. -/

structure Holding where
  symbol : String
  quantity : ℚ
  value : ℚ

structure PortfolioContext where
  holdings : List Holding
  total_value : Option ℚ

structure WorkflowRequest where
  youtube_url : String
  portfolio_context : Option PortfolioContext

structure Transcript where
  video_id : String
  video_title : String
  text : String
  duration : Option ℤ

structure MarketAnalysis where
  conditions : String
  trends : List String
  risk_factors : List String
  summary : String

structure SuggestedAction where
  type : String
  symbol : String
  rationale : String

structure Recommendation where
  action : String
  confidence : ℚ
  suggested_actions : List SuggestedAction
  summary : Option String

structure AggregatedRecommendation where
  action : String
  confidence : ℚ
  suggested_actions : List SuggestedAction
  summary : String
  key_insights : List String

structure WorkflowResponse where
  transcript : Transcript
  market_analysis : MarketAnalysis
  recommendation : Recommendation

/-! ## String helpers shared by the embedding -/

/-- `+=` accumulation of a rendered line per list element (the Python
`for` loops in the prompt builders): concatenation in list order. -/
def strJoin : List String → String
  | [] => ""
  | s :: rest => s ++ strJoin rest

/-- Python `sep.join(l)`: the elements in order with `sep` between
consecutive elements. -/
def pyJoin (sep : String) : List String → String
  | [] => ""
  | [s] => s
  | s :: rest => s ++ sep ++ pyJoin sep rest

/-! ## tools/youtube_tool.py — transcript adapter -/

/-- One transcript segment as returned by the provider library
(`FetchedTranscriptSnippet`, attributes `text`, `start`, `duration`;
`start` and `duration` are floats, embedded as `ℚ`). -/
structure Snippet where
  text : String
  start : ℚ
  duration : ℚ

/-- Python `int()` applied to a float: truncation toward zero. -/
def pyInt (q : ℚ) : ℤ := if 0 ≤ q then ⌊q⌋ else ⌈q⌉

/-- `fetch_transcript` (tools/youtube_tool.py, lines 41–93), success path:
the provider returned the segment list `transcript_data`.
`full_text = ' '.join([item.text for item in transcript_data])`;
`duration` is `None` for an empty list, else
`int(last_item.start + last_item.duration)` for the last segment. -/
def fetch_transcript (transcript_data : List Snippet) : String × Option ℤ :=
  let full_text := pyJoin " " (transcript_data.map (·.text))
  let duration : Option ℤ :=
    match transcript_data.getLast? with
    | none => none
    | some last_item => some (pyInt (last_item.start + last_item.duration))
  (full_text, duration)

/-- `get_video_metadata` (tools/youtube_tool.py, lines 28–38): placeholder
title `f"Video {video_id}"`. -/
def videoTitle (video_id : String) : String := "Video " ++ video_id

/-- `get_youtube_transcript` + `extract_transcript`
(tools/youtube_tool.py lines 96–114, agents/transcript_agent.py): the
`Transcript` value built from a successful fetch for a resolved id. -/
def buildTranscript (video_id : String) (segs : List Snippet) : Transcript :=
  { video_id := video_id
    video_title := videoTitle video_id
    text := (fetch_transcript segs).1
    duration := (fetch_transcript segs).2 }

/-! ## Prompt builders

Float *formatting* is not embedded; the three Python format operations
that appear in the prompts are taken as parameters. -/

/-- The float-formatting operations used by the prompt builders:
`money` is the format spec `,.2f`, `plain` is `str()` of a float
(f-string `{holding.quantity}`), `fixed2` is the format spec `.2f`. -/
structure FloatFmt where
  money : ℚ → String
  plain : ℚ → String
  fixed2 : ℚ → String


/-- The holdings lines shared by all three builders:
`f'  - {holding.symbol}: {holding.quantity} (${holding.value:,.2f})\n'`
per holding. -/
def holdingsLines (fmt : FloatFmt) (holdings : List Holding) : String :=
  strJoin (holdings.map fun h =>
    "  - " ++ h.symbol ++ ": " ++ fmt.plain h.quantity ++ " ($" ++ fmt.money h.value ++ ")\n")

/-- The portfolio block guarded by
`if portfolio_context and portfolio_context.holdings:` (Python
truthiness: present and non-empty), with the builder-specific header.
`portfolio_context.total_value or 0` maps `None` (and `0.0`) to `0`. -/
def portfolioSection (fmt : FloatFmt) (header : String) (pc : Option PortfolioContext) : String :=
  match pc with
  | none => ""
  | some p =>
    if p.holdings.isEmpty then ""
    else
      header ++ "Total Value: $" ++ fmt.money (p.total_value.getD 0) ++ "\n"
        ++ "Holdings:\n" ++ holdingsLines fmt p.holdings ++ "\n"

/-- The analysis-stage prompt (agents/analysis_agent.py, lines 47–63). -/
def analysisPrompt (fmt : FloatFmt) (transcript_text : String)
    (pc : Option PortfolioContext) : String :=
  "Analyze the following video transcript for market conditions, trends, and risk factors:\n\n"
    ++ "TRANSCRIPT:\n" ++ transcript_text ++ "\n\n"
    ++ portfolioSection fmt "PORTFOLIO CONTEXT:\n" pc
    ++ "Provide a structured analysis including: "
    ++ "1) Overall market conditions (bullish, bearish, or neutral), "
    ++ "2) Key trends identified, "
    ++ "3) Risk factors mentioned, "
    ++ "4) A detailed summary of market conditions."

/-- The recommendation-stage prompt (agents/recommendation_agent.py,
lines 52–71).  Note: `Trends:` and `Risk Factors:` are rendered with a
bare `", ".join(...)` — there is no `"None"` fallback here. -/
def recommendationPrompt (fmt : FloatFmt) (ma : MarketAnalysis)
    (pc : Option PortfolioContext) : String :=
  "Based on the following market analysis, provide investment recommendations:\n\n"
    ++ "MARKET ANALYSIS:\n"
    ++ "Conditions: " ++ ma.conditions ++ "\n"
    ++ "Trends: " ++ pyJoin ", " ma.trends ++ "\n"
    ++ "Risk Factors: " ++ pyJoin ", " ma.risk_factors ++ "\n"
    ++ "Summary: " ++ ma.summary ++ "\n\n"
    ++ portfolioSection fmt "CURRENT PORTFOLIO:\n" pc
    ++ "Provide specific recommendations including: "
    ++ "1) Overall action type (rebalance, hold, diversify, increase allocation, etc.), "
    ++ "2) Confidence level (0.0 to 1.0), "
    ++ "3) Specific suggested actions for each asset (type: increase/decrease/hold/add/remove, symbol, rationale), "
    ++ "4) A summary of the recommendation rationale."

/-- One `Video i` analysis block of the aggregation prompt
(agents/aggregated_agent.py, lines 69–74): an empty `trends` or
`risk_factors` list renders as the literal `"None"`. -/
def aggAnalysisBlock (i : ℕ) (a : MarketAnalysis) : String :=
  "\nVideo " ++ toString i ++ ":\n"
    ++ "  Conditions: " ++ a.conditions ++ "\n"
    ++ "  Trends: " ++ (if a.trends.isEmpty then "None" else pyJoin ", " a.trends) ++ "\n"
    ++ "  Risk Factors: "
    ++ (if a.risk_factors.isEmpty then "None" else pyJoin ", " a.risk_factors) ++ "\n"
    ++ "  Summary: " ++ a.summary ++ "\n"

/-- One `Video i` recommendation block of the aggregation prompt
(agents/aggregated_agent.py, lines 77–86).  `if rec.summary:` is Python
truthiness, so both `None` and `""` suppress the summary line. -/
def aggRecBlock (fmt : FloatFmt) (i : ℕ) (rec : Recommendation) : String :=
  "\nVideo " ++ toString i ++ ":\n"
    ++ "  Action: " ++ rec.action ++ "\n"
    ++ "  Confidence: " ++ fmt.fixed2 rec.confidence ++ "\n"
    ++ (if rec.suggested_actions.isEmpty then ""
        else "  Suggested Actions:\n"
          ++ strJoin (rec.suggested_actions.map fun a =>
            "    - " ++ a.type.toUpper ++ " " ++ a.symbol ++ ": " ++ a.rationale ++ "\n"))
    ++ (match rec.summary with
        | some s => if s.isEmpty then "" else "  Summary: " ++ s ++ "\n"
        | none => "")

/-- The aggregation prompt (agents/aggregated_agent.py, lines 66–102),
built after the precondition checks pass. -/
def aggPrompt (fmt : FloatFmt) (mas : List MarketAnalysis) (recs : List Recommendation)
    (pc : Option PortfolioContext) : String :=
  "Based on analysis of " ++ toString mas.length
    ++ " recent videos, provide a consolidated investment recommendation:\n\n"
    ++ "RECENT MARKET ANALYSES:\n"
    ++ strJoin ((mas.enumFrom 1).map fun p => aggAnalysisBlock p.1 p.2)
    ++ "\n\nRECENT RECOMMENDATIONS:\n"
    ++ strJoin ((recs.enumFrom 1).map fun p => aggRecBlock fmt p.1 p.2)
    ++ portfolioSection fmt "\n\nCURRENT PORTFOLIO:\n" pc
    ++ "\nBased on these multiple analyses, provide a consolidated recommendation that:\n"
    ++ "1) Identifies overall market consensus and patterns\n"
    ++ "2) Provides a single actionable recommendation (action type)\n"
    ++ "3) Assigns a confidence level based on agreement across sources\n"
    ++ "4) Suggests specific actions for each relevant asset\n"
    ++ "5) Summarizes key insights and rationale\n"
    ++ "6) Highlights any conflicting signals or areas of uncertainty\n"

/-! ## Stage agents

The LLM provider is an oracle `String → Except ProviderExc (Option T)`:
given the prompt, it returns a structured output (`some`), a falsy
output (`none`, the `if not result.output` branch), or raises. -/

/-- Exceptions the provider call itself can raise. -/
inductive ProviderExc where
  | apiErr (msg : String)
  | runErr (msg : String)
  | otherErr (msg : String)

/-- The Python class of an exception raised by an agent function:
`AgentError` or `AgentRunError` (both from `pydantic_ai.exceptions`). -/
inductive AgentExcKind where
  | agentError
  | agentRunError
deriving DecidableEq

/-- A raised agent exception: its class and its message. -/
structure AgentExc where
  kind : AgentExcKind
  msg : String

/-- `analyze_market` (agents/analysis_agent.py, lines 33–81): build the
prompt, call the provider; empty output and every caught exception are
normalized to `AgentRunError`. -/
def analyze_market (fmt : FloatFmt) (transcript_text : String)
    (pc : Option PortfolioContext)
    (provider : String → Except ProviderExc (Option MarketAnalysis)) :
    Except AgentExc MarketAnalysis :=
  match provider (analysisPrompt fmt transcript_text pc) with
  | .ok (some out) => .ok out
  | .ok none => .error ⟨.agentRunError, "Agent returned empty output"⟩
  | .error (.runErr m) => .error ⟨.agentRunError, m⟩
  | .error (.apiErr m) => .error ⟨.agentRunError, "OpenAI API error: " ++ m⟩
  | .error (.otherErr m) => .error ⟨.agentRunError, "Unexpected error: " ++ m⟩

/-- `generate_recommendation` (agents/recommendation_agent.py,
lines 34–89): like the analysis agent but normalizing to `AgentError`.
`runErrSub` records whether `AgentRunError` is a subclass of
`AgentError` in the installed library (external fact): it decides
whether a provider-raised `AgentRunError` is re-raised as-is by
`except AgentError` or wrapped by `except Exception`. -/
def generate_recommendation (runErrSub : Bool) (fmt : FloatFmt) (ma : MarketAnalysis)
    (pc : Option PortfolioContext)
    (provider : String → Except ProviderExc (Option Recommendation)) :
    Except AgentExc Recommendation :=
  match provider (recommendationPrompt fmt ma pc) with
  | .ok (some out) => .ok out
  | .ok none => .error ⟨.agentError, "Agent returned empty output"⟩
  | .error (.runErr m) =>
    if runErrSub then .error ⟨.agentRunError, m⟩
    else .error ⟨.agentError, "Unexpected error: " ++ m⟩
  | .error (.apiErr m) => .error ⟨.agentError, "OpenAI API error: " ++ m⟩
  | .error (.otherErr m) => .error ⟨.agentError, "Unexpected error: " ++ m⟩

/-- Error raised by `generate_aggregated_recommendation`: the
precondition `ValueError`s or a normalized agent exception. -/
inductive AggExc where
  | valueErr (msg : String)
  | agent (e : AgentExc)

/-- Observable outcome of `generate_aggregated_recommendation`: whether
the prompt was constructed, whether the provider was called, and the
result. -/
structure AggOutcome where
  promptBuilt : Bool
  providerCalled : Bool
  result : Except AggExc AggregatedRecommendation

/-- `generate_aggregated_recommendation` (agents/aggregated_agent.py,
lines 40–119): the two `ValueError` precondition checks run before the
prompt is built and before the provider is called. -/
def generate_aggregated_recommendation (fmt : FloatFmt)
    (mas : List MarketAnalysis) (recs : List Recommendation)
    (pc : Option PortfolioContext)
    (provider : String → Except ProviderExc (Option AggregatedRecommendation)) :
    AggOutcome :=
  if mas.isEmpty || recs.isEmpty then
    ⟨false, false, .error (.valueErr "Both market_analyses and recommendations lists must be non-empty")⟩
  else if mas.length ≠ recs.length then
    ⟨false, false, .error (.valueErr "market_analyses and recommendations must have the same length")⟩
  else
    match provider (aggPrompt fmt mas recs pc) with
    | .ok (some out) => ⟨true, true, .ok out⟩
    | .ok none => ⟨true, true, .error (.agent ⟨.agentRunError, "Agent returned empty output"⟩)⟩
    | .error (.runErr m) => ⟨true, true, .error (.agent ⟨.agentRunError, m⟩)⟩
    | .error (.apiErr m) => ⟨true, true, .error (.agent ⟨.agentRunError, "OpenAI API error: " ++ m⟩)⟩
    | .error (.otherErr m) => ⟨true, true, .error (.agent ⟨.agentRunError, "Unexpected error: " ++ m⟩)⟩

/-! ## main.py — the `/process` orchestrator -/

/-- The three failure kinds of the transcript library. -/
inductive YTKind where
  | transcriptsDisabled
  | noTranscriptFound
  | videoUnavailable
deriving DecidableEq

/-- A raised transcript-library exception: its kind and `str(e)`. -/
structure YTError where
  kind : YTKind
  msg : String

/-- Exceptions `extract_transcript` can raise into the orchestrator. -/
inductive FetchExc where
  | yt (e : YTError)
  | other (msg : String)

/-- `fastapi.HTTPException`: status code and detail string. -/
structure HTTPException where
  status : ℕ
  detail : String

/-- Oracle data for the external calls made by one `/process` request:
the pre-flight availability probe (`none` = transcript available, `some
e` = the probe raised `e`), the transcript fetch, the two LLM provider
calls, and the external `runErrSub` class fact. -/
structure Env where
  avail : Option YTError
  fetch : Except FetchExc Transcript
  analysisProvider : String → Except ProviderExc (Option MarketAnalysis)
  recProvider : String → Except ProviderExc (Option Recommendation)
  runErrSub : Bool

/-- Observable outcome of the `process_video` handler body: which stages
were invoked, and either a `WorkflowResponse` or the raised
`HTTPException`. -/
structure PvOut where
  fetchCalled : Bool
  analysisCalled : Bool
  recCalled : Bool
  result : Except HTTPException WorkflowResponse

/-- `process_video` (main.py, lines 233–366).  Every branch mirrors one
`try/except` arm of the handler; the outer `except HTTPException:
raise` / `except Exception` pair means the handler only ever raises
`HTTPException`.  `str(workflow_request.youtube_url)` is taken as the
URL string itself (pydantic's `HttpUrl` normalization is not embedded). -/
def process_video (fmt : FloatFmt) (req : WorkflowRequest) (env : Env) : PvOut :=
  match extract_video_id req.youtube_url.toList with
  | .error e =>
    ⟨false, false, false, .error ⟨400, "Invalid YouTube URL: " ++ e⟩⟩
  | .ok video_id =>
    match env.avail with
    | some e =>
      ⟨false, false, false,
        .error ⟨400, "Transcript not available for video " ++ String.mk video_id ++ ": " ++ e.msg⟩⟩
    | none =>
      match env.fetch with
      | .error (.yt e) =>
        ⟨true, false, false, .error ⟨400, "Failed to extract transcript: " ++ e.msg⟩⟩
      | .error (.other m) =>
        ⟨true, false, false, .error ⟨500, "Unexpected error during transcript extraction: " ++ m⟩⟩
      | .ok transcript =>
        match analyze_market fmt transcript.text req.portfolio_context env.analysisProvider with
        | .error e =>
          ⟨true, true, false,
            .error ⟨500, (if e.kind == .agentError || (e.kind == .agentRunError && env.runErrSub)
                then "AI agent error during market analysis: "
                else "Unexpected error during market analysis: ") ++ e.msg⟩⟩
        | .ok market_analysis =>
          match generate_recommendation env.runErrSub fmt market_analysis
              req.portfolio_context env.recProvider with
          | .error e =>
            ⟨true, true, true,
              .error ⟨500, (if e.kind == .agentError || (e.kind == .agentRunError && env.runErrSub)
                  then "AI agent error during recommendation generation: "
                  else "Unexpected error during recommendation generation: ") ++ e.msg⟩⟩
          | .ok recommendation =>
            ⟨true, true, true, .ok ⟨transcript, market_analysis, recommendation⟩⟩

/-- One HTTP response of the service, as observed by the client: status,
the `X-Request-ID` header set by `RequestIDMiddleware` (main.py, lines
49–69), and the body's `detail` and `request_id` fields (`none` when the
body has no `request_id` key). -/
structure HttpResponse where
  status : ℕ
  xRequestId : Option String
  bodyRequestId : Option String
  bodyDetail : String

/-- The full service behavior for one `POST /process` request with
correlation id `rid`: a body that fails pydantic schema validation
(`none`) goes to `validation_exception_handler` (main.py, lines
143–155), whose body echoes `request_id`; a body the schema accepted
(`some req` — in the real service `req.youtube_url` is then a
syntactically valid absolute HTTP URL, pydantic's `HttpUrl`) runs the
handler, and a raised `HTTPException` goes to FastAPI's default
handler, whose body is `{"detail": ...}` with no `request_id` field.
Concrete inputs instantiating `some req` must therefore use
schema-valid URLs to describe reachable service traces.
`RequestIDMiddleware` attaches the `X-Request-ID` header on the way
out in every case. -/
def respondProcess (fmt : FloatFmt) (rid : String) (body : Option WorkflowRequest)
    (env : Env) : HttpResponse :=
  match body with
  | none => ⟨422, some rid, some rid, "Validation error"⟩
  | some req =>
    match (process_video fmt req env).result with
    | .ok _ => ⟨200, some rid, none, ""⟩
    | .error h => ⟨h.status, some rid, none, h.detail⟩

/-! ## Substring machinery (for "the detail mentions …" claims) -/

/-- `needle` occurs as a contiguous substring of the haystack. -/
def containsSub (needle : List Char) : List Char → Bool
  | [] => needle.isEmpty
  | c :: rest => needle.isPrefixOf (c :: rest) || containsSub needle rest

/-- String-level substring occurrence. -/
def strContains (needle s : String) : Bool := containsSub needle.toList s.toList

/-! ## Concrete fixtures (used by witnesses and counterexamples) -/

/-- Trivial float formatter; the formatting functions are irrelevant to
the properties at issue. -/
def fmt0 : FloatFmt := ⟨fun _ => "", fun _ => "", fun _ => ""⟩

def req0 : WorkflowRequest := ⟨"https://youtu.be/dQw4w9WgXcQ", none⟩

def tr0 : Transcript := ⟨"dQw4w9WgXcQ", "Video dQw4w9WgXcQ", "hello world", some 5⟩

def ma0 : MarketAnalysis := ⟨"bullish", [], [], "ok"⟩

def rec0 : Recommendation := ⟨"hold", 1/2, [], none⟩

/-- Environment whose availability probe raises `TranscriptsDisabled`
with the library's cause message. -/
def envDisabled : Env :=
  { avail := some ⟨.transcriptsDisabled, "Subtitles are disabled for this video"⟩
    fetch := .error (.other "unreached")
    analysisProvider := fun _ => .ok none
    recProvider := fun _ => .ok none
    runErrSub := true }

/-- Environment where the probe passes, the fetch succeeds, and the
analysis provider returns a falsy output. -/
def envEmptyAnalysis : Env :=
  { avail := none
    fetch := .ok tr0
    analysisProvider := fun _ => .ok none
    recProvider := fun _ => .ok none
    runErrSub := true }

/-! # Lemmas and claim theorems -/

theorem containsSub_of_isPrefixOf {n h : List Char} (hp : n.isPrefixOf h = true) :
    containsSub n h = true := by
  cases h with
  | nil =>
    have hn : n = [] := List.prefix_nil.mp (List.isPrefixOf_iff_prefix.mp hp)
    subst hn; rfl
  | cons c rest => simp [containsSub, hp]

theorem containsSub_self (n : List Char) : containsSub n n = true :=
  containsSub_of_isPrefixOf (List.isPrefixOf_iff_prefix.mpr List.prefix_rfl)

theorem containsSub_append_right {n : List Char} (a : List Char) {b : List Char}
    (hb : containsSub n b = true) : containsSub n (a ++ b) = true := by
  induction a with
  | nil => simpa using hb
  | cons c cs ih => simp [containsSub, ih]

theorem containsSub_append_left {n a : List Char} (b : List Char)
    (ha : containsSub n a = true) : containsSub n (a ++ b) = true := by
  induction a with
  | nil =>
    have hn : n = [] := by
      cases n with
      | nil => rfl
      | cons x xs => simp [containsSub] at ha
    subst hn
    cases b with
    | nil => rfl
    | cons y ys => simp [containsSub, List.isPrefixOf]
  | cons c cs ih =>
    rcases (by simpa [containsSub] using ha : n <+: c :: cs ∨ containsSub n cs = true) with hp | hc
    · have : n <+: (c :: cs) ++ b := hp.trans (List.prefix_append _ _)
      exact containsSub_of_isPrefixOf (List.isPrefixOf_iff_prefix.mpr this)
    · have := ih hc
      simp [containsSub, this]

theorem strContains_append_right {n : String} (a : String) {b : String}
    (hb : strContains n b = true) : strContains n (a ++ b) = true := by
  unfold strContains at *
  rw [show (a ++ b).toList = a.toList ++ b.toList from String.data_append a b]
  exact containsSub_append_right _ hb

theorem strContains_append_left {n a : String} (b : String)
    (ha : strContains n a = true) : strContains n (a ++ b) = true := by
  unfold strContains at *
  rw [show (a ++ b).toList = a.toList ++ b.toList from String.data_append a b]
  exact containsSub_append_left _ ha

theorem strContains_self (n : String) : strContains n n = true :=
  containsSub_self n.toList

theorem strContains_strJoin {n x : String} {l : List String} (hx : x ∈ l)
    (h : strContains n x = true) : strContains n (strJoin l) = true := by
  induction l with
  | nil => cases hx
  | cons y ys ih =>
    rcases List.mem_cons.mp hx with rfl | hmem
    · exact strContains_append_left _ h
    · exact strContains_append_right _ (ih hmem)

theorem mem_enumFrom_of_mem {α : Type} {a : α} {l : List α} (h : a ∈ l) (n : ℕ) :
    ∃ i, (i, a) ∈ l.enumFrom n := by
  induction l generalizing n with
  | nil => cases h
  | cons x xs ih =>
    rcases List.mem_cons.mp h with rfl | hmem
    · exact ⟨n, List.mem_cons_self _ _⟩
    · obtain ⟨i, hi⟩ := ih hmem (n + 1)
      exact ⟨i, List.mem_cons_of_mem _ hi⟩

theorem respondProcess_some (fmt : FloatFmt) (rid : String) (req : WorkflowRequest) (env : Env) :
    respondProcess fmt rid (some req) env =
      match (process_video fmt req env).result with
      | .ok _ => ⟨200, some rid, none, ""⟩
      | .error h => ⟨h.status, some rid, none, h.detail⟩ := rfl

/-! ## C1 — pre-flight short circuit -/

/-- C1: when the URL resolves to a video ID and the pre-flight
availability probe raises one of the three transcript failure kinds,
`/process` raises HTTP 400 whose detail mentions that video ID and
embeds the library exception's message verbatim (hence mentions any
phrase — in particular the failure kind's name — that the message
mentions), the endpoint response has status 400, and neither the
transcript fetch nor the analysis or recommendation agent is invoked. -/
theorem claim_C1_preflight_short_circuit
    (fmt : FloatFmt) (req : WorkflowRequest) (env : Env)
    (vid : List Char) (e : YTError) (phrase : String)
    (hvid : extract_video_id req.youtube_url.toList = .ok vid)
    (havail : env.avail = some e)
    (hname : strContains phrase e.msg = true) :
    (process_video fmt req env).result =
        .error ⟨400, "Transcript not available for video " ++ String.mk vid ++ ": " ++ e.msg⟩
      ∧ strContains (String.mk vid)
          ("Transcript not available for video " ++ String.mk vid ++ ": " ++ e.msg) = true
      ∧ strContains phrase
          ("Transcript not available for video " ++ String.mk vid ++ ": " ++ e.msg) = true
      ∧ (∀ rid, (respondProcess fmt rid (some req) env).status = 400)
      ∧ (process_video fmt req env).fetchCalled = false
      ∧ (process_video fmt req env).analysisCalled = false
      ∧ (process_video fmt req env).recCalled = false := by
  have hres : (process_video fmt req env) =
      ⟨false, false, false,
        .error ⟨400, "Transcript not available for video " ++ String.mk vid ++ ": " ++ e.msg⟩⟩ := by
    simp only [process_video, hvid, havail]
  refine ⟨by rw [hres], ?_, ?_, ?_, by rw [hres], by rw [hres], by rw [hres]⟩
  · apply strContains_append_left
    apply strContains_append_left
    apply strContains_append_right
    exact strContains_self _
  · exact strContains_append_right _ hname
  · intro rid
    rw [respondProcess_some, hres]

/-- C1 witness: the disabled-transcript scenario on a concrete request. -/
theorem claim_C1_witness :
    (process_video fmt0 req0 envDisabled).result =
        .error ⟨400, "Transcript not available for video " ++ String.mk "dQw4w9WgXcQ".toList
          ++ ": " ++ "Subtitles are disabled for this video"⟩
      ∧ strContains (String.mk "dQw4w9WgXcQ".toList)
          ("Transcript not available for video " ++ String.mk "dQw4w9WgXcQ".toList
            ++ ": " ++ "Subtitles are disabled for this video") = true
      ∧ strContains "disabled"
          ("Transcript not available for video " ++ String.mk "dQw4w9WgXcQ".toList
            ++ ": " ++ "Subtitles are disabled for this video") = true
      ∧ (∀ rid, (respondProcess fmt0 rid (some req0) envDisabled).status = 400)
      ∧ (process_video fmt0 req0 envDisabled).fetchCalled = false
      ∧ (process_video fmt0 req0 envDisabled).analysisCalled = false
      ∧ (process_video fmt0 req0 envDisabled).recCalled = false :=
  claim_C1_preflight_short_circuit fmt0 req0 envDisabled "dQw4w9WgXcQ".toList
    ⟨.transcriptsDisabled, "Subtitles are disabled for this video"⟩ "disabled"
    rfl rfl (by decide)

/-! ## C2 — empty analysis output -/

/-- C2: when the analysis provider returns a falsy structured output,
the analysis stage fails with the normalized agent-error kind
(`AgentRunError`, message "Agent returned empty output"), `/process`
raises HTTP 500 (so the endpoint responds 500), the recommendation agent
is never invoked, and no `WorkflowResponse` (hence no partial stage
result) appears in the response. -/
theorem claim_C2_empty_analysis
    (fmt : FloatFmt) (req : WorkflowRequest) (env : Env) (vid : List Char) (t : Transcript)
    (hvid : extract_video_id req.youtube_url.toList = .ok vid)
    (havail : env.avail = none)
    (hfetch : env.fetch = .ok t)
    (hempty : env.analysisProvider (analysisPrompt fmt t.text req.portfolio_context) = .ok none) :
    analyze_market fmt t.text req.portfolio_context env.analysisProvider =
        .error ⟨.agentRunError, "Agent returned empty output"⟩
      ∧ (∃ h : HTTPException, (process_video fmt req env).result = .error h ∧ h.status = 500)
      ∧ (∀ rid, (respondProcess fmt rid (some req) env).status = 500)
      ∧ (process_video fmt req env).recCalled = false
      ∧ ∀ r : WorkflowResponse, (process_video fmt req env).result ≠ .ok r := by
  have hana : analyze_market fmt t.text req.portfolio_context env.analysisProvider =
      .error ⟨.agentRunError, "Agent returned empty output"⟩ := by
    unfold analyze_market
    rw [hempty]
  have hres : (process_video fmt req env) =
      ⟨true, true, false,
        .error ⟨500, (if env.runErrSub then "AI agent error during market analysis: "
            else "Unexpected error during market analysis: ")
          ++ "Agent returned empty output"⟩⟩ := by
    simp only [process_video, hvid, havail, hfetch, hana]
    cases env.runErrSub <;> rfl
  refine ⟨hana, ⟨_, by rw [hres], rfl⟩, ?_, by rw [hres], ?_⟩
  · intro rid
    rw [respondProcess_some, hres]
  · intro r
    rw [hres]
    exact fun h => Except.noConfusion h

/-- C2 witness: the empty-analysis scenario on a concrete request. -/
theorem claim_C2_witness :
    analyze_market fmt0 tr0.text req0.portfolio_context envEmptyAnalysis.analysisProvider =
        .error ⟨.agentRunError, "Agent returned empty output"⟩
      ∧ (∃ h : HTTPException,
          (process_video fmt0 req0 envEmptyAnalysis).result = .error h ∧ h.status = 500)
      ∧ (∀ rid, (respondProcess fmt0 rid (some req0) envEmptyAnalysis).status = 500)
      ∧ (process_video fmt0 req0 envEmptyAnalysis).recCalled = false
      ∧ ∀ r : WorkflowResponse, (process_video fmt0 req0 envEmptyAnalysis).result ≠ .ok r :=
  claim_C2_empty_analysis fmt0 req0 envEmptyAnalysis "dQw4w9WgXcQ".toList tr0
    rfl rfl rfl rfl

/-! ## C8 — aggregated-recommendation preconditions -/

/-- C8: with an empty list or mismatched lengths, the aggregated
recommendation agent fails with the precondition `ValueError` before the
prompt is constructed and before the provider is called. -/
theorem claim_C8_agg_precondition
    (fmt : FloatFmt) (mas : List MarketAnalysis) (recs : List Recommendation)
    (pc : Option PortfolioContext)
    (provider : String → Except ProviderExc (Option AggregatedRecommendation))
    (h : mas = [] ∨ recs = [] ∨ mas.length ≠ recs.length) :
    (∃ m, (generate_aggregated_recommendation fmt mas recs pc provider).result =
        .error (.valueErr m))
      ∧ (generate_aggregated_recommendation fmt mas recs pc provider).promptBuilt = false
      ∧ (generate_aggregated_recommendation fmt mas recs pc provider).providerCalled = false := by
  unfold generate_aggregated_recommendation
  by_cases h1 : (mas.isEmpty || recs.isEmpty) = true
  · rw [if_pos h1]
    exact ⟨⟨_, rfl⟩, rfl, rfl⟩
  · have h2 : mas.length ≠ recs.length := by
      rcases h with rfl | rfl | hne
      · simp at h1
      · simp at h1
      · exact hne
    rw [if_neg h1, if_pos h2]
    exact ⟨⟨_, rfl⟩, rfl, rfl⟩

/-- C8 witness: one analysis, zero recommendations. -/
theorem claim_C8_witness :
    (∃ m, (generate_aggregated_recommendation fmt0 [ma0] [] none
        (fun _ => .ok none)).result = .error (.valueErr m))
      ∧ (generate_aggregated_recommendation fmt0 [ma0] [] none
          (fun _ => .ok none)).promptBuilt = false
      ∧ (generate_aggregated_recommendation fmt0 [ma0] [] none
          (fun _ => .ok none)).providerCalled = false :=
  claim_C8_agg_precondition fmt0 [ma0] [] none (fun _ => .ok none) (Or.inr (Or.inl rfl))

/-! ## C10 — the handler only raises HTTPException, with status 400 or 500 -/

/-- C10: every error the `/process` handler body can produce is an
`HTTPException` (enforced by the result type of the embedding, which
mirrors the outer `except HTTPException: raise` / `except Exception`
pair), and its status code is always 400 or 500. -/
theorem claim_C10_only_http_errors
    (fmt : FloatFmt) (req : WorkflowRequest) (env : Env) (h : HTTPException)
    (hres : (process_video fmt req env).result = .error h) :
    h.status = 400 ∨ h.status = 500 := by
  unfold process_video at hres
  repeat' split at hres
  all_goals try simp only [Except.error.injEq] at hres
  all_goals first
    | (subst hres; simp)
    | (cases hres)

/-- C10 witness: the disabled-transcript scenario produces a 400. -/
theorem claim_C10_witness :
    (400 : ℕ) = 400 ∨ (400 : ℕ) = 500 :=
  claim_C10_only_http_errors fmt0 req0 envDisabled
    ⟨400, "Transcript not available for video dQw4w9WgXcQ: Subtitles are disabled for this video"⟩
    rfl

/-! ## C9 — X-Request-ID header and error-body identifier -/

/-- C9 counterexample: `https://example.com/x` is a syntactically valid
absolute HTTP URL, so it passes pydantic's `HttpUrl` schema and reaches
the handler, where `extract_video_id` raises; the resulting 400 error
response body has no `request_id` field at all (FastAPI's default
`HTTPException` handler serializes only `{"detail": ...}`),
contradicting "every error response body contains that same identifier". -/
theorem claim_C9_counterexample :
    (respondProcess fmt0 "abc12345" (some ⟨"https://example.com/x", none⟩)
        envEmptyAnalysis).status = 400
      ∧ (respondProcess fmt0 "abc12345" (some ⟨"https://example.com/x", none⟩)
          envEmptyAnalysis).bodyRequestId = none
      ∧ (respondProcess fmt0 "abc12345" (some ⟨"https://example.com/x", none⟩)
          envEmptyAnalysis).bodyRequestId ≠ some "abc12345" := by
  refine ⟨rfl, rfl, ?_⟩
  intro hcontra
  exact Option.noConfusion hcontra

/-- C9 (amended): every response carries an `X-Request-ID` header equal
to the per-request correlation identifier, and the 422 validation-error
body echoes that identifier; but the error responses produced from
`HTTPException`s raised inside the `/process` handler carry only a
`detail` string — their bodies contain no request identifier. -/
theorem claim_C9_amended
    (fmt : FloatFmt) (rid : String) (body : Option WorkflowRequest) (env : Env) :
    (respondProcess fmt rid body env).xRequestId = some rid
      ∧ (body = none → (respondProcess fmt rid body env).bodyRequestId = some rid)
      ∧ (∀ req h, body = some req → (process_video fmt req env).result = .error h →
          (respondProcess fmt rid body env).status = h.status
            ∧ (respondProcess fmt rid body env).bodyRequestId = none) := by
  cases body with
  | none =>
    refine ⟨rfl, fun _ => rfl, ?_⟩
    intro req h hb
    exact Option.noConfusion hb
  | some req =>
    have hx : (respondProcess fmt rid (some req) env).xRequestId = some rid := by
      rw [respondProcess_some]
      cases hr : (process_video fmt req env).result with
      | ok r => rfl
      | error h => rfl
    refine ⟨hx, fun hb => Option.noConfusion hb, ?_⟩
    intro req' h hb hres
    injection hb with hb'
    subst hb'
    rw [respondProcess_some, hres]
    exact ⟨rfl, rfl⟩

/-- C9 amended witness: at a schema-valid but unresolvable URL, the
header is present on the concrete 400 response and its body carries no
identifier. -/
theorem claim_C9_amended_witness :
    (respondProcess fmt0 "abc12345" (some ⟨"https://example.com/x", none⟩)
        envEmptyAnalysis).xRequestId = some "abc12345"
      ∧ (respondProcess fmt0 "abc12345" (some ⟨"https://example.com/x", none⟩)
          envEmptyAnalysis).status = 400
      ∧ (respondProcess fmt0 "abc12345" (some ⟨"https://example.com/x", none⟩)
          envEmptyAnalysis).bodyRequestId = none := by
  have h := claim_C9_amended fmt0 "abc12345" (some ⟨"https://example.com/x", none⟩)
    envEmptyAnalysis
  have h3 := h.2.2 ⟨"https://example.com/x", none⟩
    ⟨400, "Invalid YouTube URL: Invalid YouTube URL or video ID: https://example.com/x"⟩ rfl rfl
  exact ⟨h.1, h3.1, h3.2⟩

/-! ## C3 / C7 — the transcript adapter -/

theorem fetch_transcript_def (segs : List Snippet) :
    fetch_transcript segs =
      (pyJoin " " (segs.map (·.text)),
        match segs.getLast? with
        | none => none
        | some last => some (pyInt (last.start + last.duration))) := rfl

/-- C3: for a provider segment list with a last element, the adapter
returns the segment texts joined in order with single-space separators,
and the duration `int(start + duration)` of the last segment only; on
the concrete two-segment example it returns ("hello world", 5). -/
theorem claim_C3_fetch_transcript
    (segs : List Snippet) (last : Snippet) (hlast : segs.getLast? = some last) :
    fetch_transcript segs =
        (pyJoin " " (segs.map (·.text)), some (pyInt (last.start + last.duration)))
      ∧ fetch_transcript [⟨"hello", 0, 2⟩, ⟨"world", 2, 3⟩] = ("hello world", some 5) := by
  constructor
  · rw [fetch_transcript_def, hlast]
  · simp [fetch_transcript, pyInt]
    decide

/-- C3 witness: the concrete two-segment example. -/
theorem claim_C3_witness :
    fetch_transcript [⟨"hello", 0, 2⟩, ⟨"world", 2, 3⟩] =
        (pyJoin " " ([(⟨"hello", 0, 2⟩ : Snippet), ⟨"world", 2, 3⟩].map (·.text)),
          some (pyInt ((2 : ℚ) + 3)))
      ∧ fetch_transcript [⟨"hello", 0, 2⟩, ⟨"world", 2, 3⟩] = ("hello world", some 5) :=
  claim_C3_fetch_transcript [⟨"hello", 0, 2⟩, ⟨"world", 2, 3⟩] ⟨"world", 2, 3⟩ rfl

/-- C7 counterexample: the adapter succeeds on a one-segment provider
response with empty text and negative timing, returning an empty
transcript text and a negative duration — the claimed invariants
(non-empty text, non-negative duration) do not hold of every successful
call. -/
theorem claim_C7_counterexample :
    fetch_transcript [⟨"", -3, 1⟩] = ("", some (-2))
      ∧ ¬ (("" : String) ≠ "")
      ∧ ¬ ((0 : ℤ) ≤ -2) := by
  refine ⟨?_, by simp, by norm_num⟩
  rw [fetch_transcript_def]
  have key : pyInt ((-3 : ℚ) + 1) = -2 := by
    unfold pyInt
    rw [if_neg (by norm_num)]
    rw [show ((-3 : ℚ) + 1) = ((-2 : ℤ) : ℚ) by norm_num]
    exact Int.ceil_intCast _
  show (("" : String), some (pyInt ((-3 : ℚ) + 1))) = ("", some (-2))
  rw [key]

theorem pyJoin_space_ne_empty {l : List String} (h : ∃ s ∈ l, s ≠ "") :
    pyJoin " " l ≠ "" := by
  induction l with
  | nil => obtain ⟨s, hs, _⟩ := h; cases hs
  | cons a rest ih =>
    cases rest with
    | nil =>
      obtain ⟨s, hs, hne⟩ := h
      have : s = a := List.mem_singleton.mp hs
      subst this
      simpa [pyJoin] using hne
    | cons b rest' =>
      intro heq
      have h2 : pyJoin " " (a :: b :: rest') = a ++ " " ++ pyJoin " " (b :: rest') := rfl
      rw [h2] at heq
      have hlen := congrArg String.length heq
      rw [String.length_append, String.length_append] at hlen
      have hsp : (" " : String).length = 1 := rfl
      have h0 : ("" : String).length = 0 := rfl
      rw [hsp, h0] at hlen
      omega

/-- C7 (amended): the transcript text is non-empty whenever some
provider segment has non-empty text, and the duration, when present, is
`int(last.start + last.duration)`, which is non-negative whenever the
last segment's `start + duration` is non-negative.  (The unconditional
claim fails: the adapter performs no validation of the provider's
segments — see the counterexample.) -/
theorem claim_C7_amended
    (segs : List Snippet)
    (htext : ∃ s ∈ segs, s.text ≠ "")
    (hlast : ∀ last, segs.getLast? = some last → 0 ≤ last.start + last.duration) :
    (fetch_transcript segs).1 ≠ ""
      ∧ ∀ d, (fetch_transcript segs).2 = some d → 0 ≤ d := by
  constructor
  · rw [fetch_transcript_def]
    apply pyJoin_space_ne_empty
    obtain ⟨s, hs, hne⟩ := htext
    exact ⟨s.text, List.mem_map.mpr ⟨s, hs, rfl⟩, hne⟩
  · intro d hd
    rw [fetch_transcript_def] at hd
    cases hg : segs.getLast? with
    | none =>
      rw [hg] at hd
      exact Option.noConfusion hd
    | some last =>
      rw [hg] at hd
      injection hd with hd'
      subst hd'
      have hq := hlast last hg
      unfold pyInt
      rw [if_pos hq]
      exact Int.floor_nonneg.mpr hq

/-- C7 amended witness: the concrete two-segment example satisfies the
hypotheses and the conclusions. -/
theorem claim_C7_amended_witness :
    (fetch_transcript [⟨"hello", 0, 2⟩, ⟨"world", 2, 3⟩]).1 ≠ ""
      ∧ ∀ d, (fetch_transcript [⟨"hello", 0, 2⟩, ⟨"world", 2, 3⟩]).2 = some d → 0 ≤ d :=
  claim_C7_amended [⟨"hello", 0, 2⟩, ⟨"world", 2, 3⟩]
    ⟨⟨"hello", 0, 2⟩, List.mem_cons_self _ _, by decide⟩
    (fun last h => by
      have hg : ([(⟨"hello", 0, 2⟩ : Snippet), ⟨"world", 2, 3⟩].getLast?) =
          some ⟨"world", 2, 3⟩ := rfl
      rw [hg] at h
      injection h with h'
      subst h'
      norm_num)

/-! ## C4 — the bare-token fallback of the resolver -/

theorem filterKeep_all (cs : List Char) :
    ((cs.filter fun c => !(c == '-' || c == '_')).all Char.isAlphanum) = cs.all isIdChar := by
  induction cs with
  | nil => rfl
  | cons c rest ih =>
    rw [List.filter_cons, List.all_cons]
    by_cases hd : c = '-'
    · subst hd
      have e1 : (!(('-' : Char) == '-' || ('-' : Char) == '_')) = false := by decide
      simp only [e1, Bool.false_eq_true, if_false]
      rw [ih, show isIdChar '-' = true from by decide, Bool.true_and]
    · by_cases hu : c = '_'
      · subst hu
        have e1 : (!(('_' : Char) == '-' || ('_' : Char) == '_')) = false := by decide
        simp only [e1, Bool.false_eq_true, if_false]
        rw [ih, show isIdChar '_' = true from by decide, Bool.true_and]
      · have hd' : (c == '-') = false := beq_eq_false_iff_ne.mpr hd
        have hu' : (c == '_') = false := beq_eq_false_iff_ne.mpr hu
        have hk : (!(c == '-' || c == '_')) = true := by rw [hd', hu']; rfl
        simp only [hk, if_true]
        rw [List.all_cons, ih]
        have hi : isIdChar c = c.isAlphanum := by
          unfold isIdChar
          rw [hd', hu']
          simp
        rw [hi]

/-- The code's fallback condition, in the spec's vocabulary: removing
hyphens and underscores and asking `isalnum()` of the rest is the same
as "every character is alphanumeric/hyphen/underscore AND at least one
is alphanumeric". -/
theorem pyIsAlnum_filter (url : List Char) :
    pyIsAlnum (url.filter fun c => !(c == '-' || c == '_')) =
      (url.all isIdChar && url.any Char.isAlphanum) := by
  induction url with
  | nil => rfl
  | cons c rest ih =>
    rw [List.filter_cons, List.all_cons, List.any_cons]
    by_cases hd : c = '-'
    · subst hd
      have e1 : (!(('-' : Char) == '-' || ('-' : Char) == '_')) = false := by decide
      simp only [e1, Bool.false_eq_true, if_false]
      rw [ih, show isIdChar '-' = true from by decide,
        show Char.isAlphanum '-' = false from by decide, Bool.true_and, Bool.false_or]
    · by_cases hu : c = '_'
      · subst hu
        have e1 : (!(('_' : Char) == '-' || ('_' : Char) == '_')) = false := by decide
        simp only [e1, Bool.false_eq_true, if_false]
        rw [ih, show isIdChar '_' = true from by decide,
          show Char.isAlphanum '_' = false from by decide, Bool.true_and, Bool.false_or]
      · have hd' : (c == '-') = false := beq_eq_false_iff_ne.mpr hd
        have hu' : (c == '_') = false := beq_eq_false_iff_ne.mpr hu
        have hk : (!(c == '-' || c == '_')) = true := by rw [hd', hu']; rfl
        simp only [hk, if_true]
        have hi : isIdChar c = c.isAlphanum := by
          unfold isIdChar
          rw [hd', hu']
          simp
        have lhs_eq : pyIsAlnum (c :: List.filter (fun c => !(c == '-' || c == '_')) rest) =
            (c.isAlphanum && rest.all isIdChar) := by
          unfold pyIsAlnum
          rw [List.all_cons, filterKeep_all]
          rfl
        rw [lhs_eq, hi]
        cases hA : c.isAlphanum <;> simp [hA]

/-- C4 counterexample: `"-----------"` (eleven hyphens) matches no URL
pattern and consists only of characters from the allowed class, yet the
resolver raises `ValueError` instead of returning it unchanged: Python's
`isalnum()` is false for the empty string left after stripping the
hyphens and underscores. -/
theorem claim_C4_counterexample :
    searchWith p1At "-----------".toList = none
      ∧ searchWith p2At "-----------".toList = none
      ∧ "-----------".toList.length = 11
      ∧ "-----------".toList.all isIdChar = true
      ∧ extract_video_id "-----------".toList =
          .error "Invalid YouTube URL or video ID: -----------" :=
  ⟨rfl, rfl, rfl, rfl, rfl⟩

/-- C4 (amended): for inputs matching neither URL pattern, the resolver
returns the input unchanged when it is an 11-character token of
alphanumerics/hyphens/underscores that contains at least one
alphanumeric character, and fails with the invalid-reference
`ValueError` otherwise (in particular on all-hyphen/underscore
11-character tokens). -/
theorem claim_C4_amended (url : List Char)
    (h1 : searchWith p1At url = none) (h2 : searchWith p2At url = none) :
    (url.length = 11 ∧ url.all isIdChar = true ∧ url.any Char.isAlphanum = true →
        extract_video_id url = .ok url)
      ∧ (¬(url.length = 11 ∧ url.all isIdChar = true ∧ url.any Char.isAlphanum = true) →
        extract_video_id url = .error ("Invalid YouTube URL or video ID: " ++ String.mk url)) := by
  have hcode : extract_video_id url =
      (if url.length == 11 && pyIsAlnum (url.filter fun c => !(c == '-' || c == '_')) then
        .ok url
      else
        .error ("Invalid YouTube URL or video ID: " ++ String.mk url)) := by
    unfold extract_video_id
    rw [h1, h2]
  constructor
  · rintro ⟨hl, ha, hn⟩
    rw [hcode, pyIsAlnum_filter, hl, ha, hn]
    simp
  · intro hn
    rw [hcode]
    have hcond : (url.length == 11 &&
        pyIsAlnum (url.filter fun c => !(c == '-' || c == '_'))) = false := by
      rw [pyIsAlnum_filter]
      by_contra h'
      rw [Bool.not_eq_false, Bool.and_eq_true, Bool.and_eq_true] at h'
      obtain ⟨hlb, hab, hnb⟩ := h'
      exact hn ⟨eq_of_beq hlb, hab, hnb⟩
    rw [hcond, if_neg Bool.false_ne_true]

/-- C4 amended witness: a bare valid token resolves to itself. -/
theorem claim_C4_amended_witness :
    extract_video_id "dQw4w9WgXcQ".toList = .ok "dQw4w9WgXcQ".toList :=
  (claim_C4_amended "dQw4w9WgXcQ".toList rfl rfl).1 ⟨by decide, by decide, by decide⟩

/-! ## C5 — the three canonical URL shapes and the round trip -/

theorem isPrefixOf_cons_of_ne {a c : Char} (as s : List Char) (h : a ≠ c) :
    (a :: as).isPrefixOf (c :: s) = false := by
  have hb : (a == c) = false := beq_eq_false_iff_ne.mpr h
  simp [List.isPrefixOf, hb]

/-- All three alternatives of pattern 1 start with `'y'`, so the pattern
cannot match at a position whose first character is not `'y'`. -/
theorem p1At_cons_ne_y {c : Char} (s : List Char) (h : c ≠ 'y') : p1At (c :: s) = none := by
  have e1 : "youtube.com/watch?v=".toList.isPrefixOf (c :: s) = false := by
    rw [show "youtube.com/watch?v=".toList = 'y' :: "outube.com/watch?v=".toList from rfl]
    exact isPrefixOf_cons_of_ne _ _ (Ne.symm h)
  have e2 : "youtu.be/".toList.isPrefixOf (c :: s) = false := by
    rw [show "youtu.be/".toList = 'y' :: "outu.be/".toList from rfl]
    exact isPrefixOf_cons_of_ne _ _ (Ne.symm h)
  have e3 : "youtube.com/embed/".toList.isPrefixOf (c :: s) = false := by
    rw [show "youtube.com/embed/".toList = 'y' :: "outube.com/embed/".toList from rfl]
    exact isPrefixOf_cons_of_ne _ _ (Ne.symm h)
  unfold p1At tryLit
  rw [e1, e2, e3]
  rfl

theorem searchWith_skip_p1 {pre : List Char} (s : List Char)
    (h : ∀ c ∈ pre, c ≠ 'y') : searchWith p1At (pre ++ s) = searchWith p1At s := by
  induction pre with
  | nil => rfl
  | cons c cs ih =>
    have hc : p1At (c :: (cs ++ s)) = none := p1At_cons_ne_y _ (h c (List.mem_cons_self _ _))
    calc searchWith p1At ((c :: cs) ++ s)
        = (p1At (c :: (cs ++ s))).orElse (fun _ => searchWith p1At (cs ++ s)) := rfl
      _ = searchWith p1At (cs ++ s) := by rw [hc]; rfl
      _ = searchWith p1At s := ih (fun c hc' => h c (List.mem_cons_of_mem _ hc'))

theorem searchWith_of_hit {f : List Char → Option (List Char)} {s v : List Char}
    (hs : s ≠ []) (h : f s = some v) : searchWith f s = some v := by
  cases s with
  | nil => exact absurd rfl hs
  | cons c rest =>
    show (f (c :: rest)).orElse _ = some v
    rw [h]
    rfl

theorem grab11_full {t : List Char} (h1 : t.length = 11) (h2 : t.all isIdChar = true) :
    grab11 t = some t := by
  have ht : t.take 11 = t := List.take_of_length_le (le_of_eq h1)
  show (if ((t.take 11).length == 11 && (t.take 11).all isIdChar) = true then
      some (t.take 11) else none) = some t
  rw [ht, h1, h2]
  rfl

theorem p1At_watch (t : List Char) (h1 : t.length = 11) (h2 : t.all isIdChar = true) :
    p1At ("youtube.com/watch?v=".toList ++ t) = some t := by
  have hpre : "youtube.com/watch?v=".toList.isPrefixOf
      ("youtube.com/watch?v=".toList ++ t) = true :=
    List.isPrefixOf_iff_prefix.mpr (List.prefix_append _ _)
  unfold p1At tryLit
  rw [hpre, List.drop_left, grab11_full h1 h2]
  rfl

theorem p1At_short (t : List Char) (h1 : t.length = 11) (h2 : t.all isIdChar = true) :
    p1At ("youtu.be/".toList ++ t) = some t := by
  have e1 : "youtube.com/watch?v=".toList.isPrefixOf ("youtu.be/".toList ++ t) = false := rfl
  have hpre : "youtu.be/".toList.isPrefixOf ("youtu.be/".toList ++ t) = true :=
    List.isPrefixOf_iff_prefix.mpr (List.prefix_append _ _)
  unfold p1At tryLit
  rw [e1, hpre, List.drop_left, grab11_full h1 h2]
  rfl

theorem p1At_embed (t : List Char) (h1 : t.length = 11) (h2 : t.all isIdChar = true) :
    p1At ("youtube.com/embed/".toList ++ t) = some t := by
  have e1 : "youtube.com/watch?v=".toList.isPrefixOf
      ("youtube.com/embed/".toList ++ t) = false := rfl
  have e2 : "youtu.be/".toList.isPrefixOf ("youtube.com/embed/".toList ++ t) = false := rfl
  have hpre : "youtube.com/embed/".toList.isPrefixOf
      ("youtube.com/embed/".toList ++ t) = true :=
    List.isPrefixOf_iff_prefix.mpr (List.prefix_append _ _)
  unfold p1At tryLit
  rw [e1, e2, hpre, List.drop_left, grab11_full h1 h2]
  rfl

theorem extract_of_searchWith_p1 {url v : List Char}
    (h : searchWith p1At url = some v) : extract_video_id url = .ok v := by
  unfold extract_video_id
  rw [h]

theorem append_pat_ne_nil {pre t : List Char} (hp : pre ≠ []) : pre ++ t ≠ [] := by
  intro hcontra
  have := congrArg List.length hcontra
  rw [List.length_append] at this
  cases pre with
  | nil => exact hp rfl
  | cons a as => simp at this

/-- C5: each of the three canonical URL shapes built around an arbitrary
valid 11-character token resolves to that token, and the round trip
through `WorkflowRequest` on the concrete short URL yields
`dQw4w9WgXcQ`. -/
theorem claim_C5_url_shapes (t : List Char) (h1 : t.length = 11) (h2 : t.all isIdChar = true) :
    extract_video_id ("https://www.youtube.com/watch?v=".toList ++ t) = .ok t
      ∧ extract_video_id ("https://youtu.be/".toList ++ t) = .ok t
      ∧ extract_video_id ("https://www.youtube.com/embed/".toList ++ t) = .ok t
      ∧ extract_video_id
          (WorkflowRequest.mk "https://youtu.be/dQw4w9WgXcQ" none).youtube_url.toList
          = .ok "dQw4w9WgXcQ".toList := by
  refine ⟨?_, ?_, ?_, rfl⟩
  · apply extract_of_searchWith_p1
    rw [show ("https://www.youtube.com/watch?v=".toList ++ t) =
        "https://www.".toList ++ ("youtube.com/watch?v=".toList ++ t) from rfl,
      searchWith_skip_p1 _ (by decide)]
    exact searchWith_of_hit (append_pat_ne_nil (by decide)) (p1At_watch t h1 h2)
  · apply extract_of_searchWith_p1
    rw [show ("https://youtu.be/".toList ++ t) =
        "https://".toList ++ ("youtu.be/".toList ++ t) from rfl,
      searchWith_skip_p1 _ (by decide)]
    exact searchWith_of_hit (append_pat_ne_nil (by decide)) (p1At_short t h1 h2)
  · apply extract_of_searchWith_p1
    rw [show ("https://www.youtube.com/embed/".toList ++ t) =
        "https://www.".toList ++ ("youtube.com/embed/".toList ++ t) from rfl,
      searchWith_skip_p1 _ (by decide)]
    exact searchWith_of_hit (append_pat_ne_nil (by decide)) (p1At_embed t h1 h2)

/-- C5 witness: the three shapes and the round trip at the concrete
token `dQw4w9WgXcQ`. -/
theorem claim_C5_witness :
    extract_video_id ("https://www.youtube.com/watch?v=".toList ++ "dQw4w9WgXcQ".toList)
        = .ok "dQw4w9WgXcQ".toList
      ∧ extract_video_id ("https://youtu.be/".toList ++ "dQw4w9WgXcQ".toList)
          = .ok "dQw4w9WgXcQ".toList
      ∧ extract_video_id ("https://www.youtube.com/embed/".toList ++ "dQw4w9WgXcQ".toList)
          = .ok "dQw4w9WgXcQ".toList
      ∧ extract_video_id
          (WorkflowRequest.mk "https://youtu.be/dQw4w9WgXcQ" none).youtube_url.toList
          = .ok "dQw4w9WgXcQ".toList :=
  claim_C5_url_shapes "dQw4w9WgXcQ".toList rfl (by decide)

/-! ## C6 — "None" rendering for empty trends/risk-factor lists -/

set_option maxRecDepth 4000 in
/-- C6 counterexample: the recommendation-stage prompt builder renders a
bare `", ".join(...)`, so for an analysis with empty `trends` and
`risk_factors` the rendered prompt contains no literal `"None"` at all,
refuting the claim for that builder. -/
theorem claim_C6_counterexample :
    strContains "None" (recommendationPrompt fmt0 ma0 none) = false := by decide

/-- C6 (amended): only the aggregation builder renders the literal
`"None"` in place of an empty `trends`/`risk_factors` list; the
recommendation-stage builder renders the bare comma-join, which is the
empty string for an empty list (nothing between the field label and the
newline). -/
theorem claim_C6_amended :
    (∀ (fmt : FloatFmt) (mas : List MarketAnalysis) (recs : List Recommendation)
        (pc : Option PortfolioContext) (a : MarketAnalysis), a ∈ mas →
        a.trends = [] ∨ a.risk_factors = [] →
        strContains "None" (aggPrompt fmt mas recs pc) = true)
      ∧ (∀ (fmt : FloatFmt) (ma : MarketAnalysis) (pc : Option PortfolioContext),
          ma.trends = [] →
          ∃ A B, recommendationPrompt fmt ma pc = A ++ ("Trends: " ++ ("\n" ++ B)))
      ∧ (∀ (fmt : FloatFmt) (ma : MarketAnalysis) (pc : Option PortfolioContext),
          ma.risk_factors = [] →
          ∃ A B, recommendationPrompt fmt ma pc =
            A ++ ("Risk Factors: " ++ ("\n" ++ B))) := by
  refine ⟨?_, ?_, ?_⟩
  · intro fmt mas recs pc a ha hempty
    obtain ⟨i, hi⟩ := mem_enumFrom_of_mem ha 1
    have hblock : strContains "None" (aggAnalysisBlock i a) = true := by
      unfold aggAnalysisBlock
      rcases hempty with ht | hr
      · rw [ht]
        simp only [List.isEmpty_nil, if_true]
        repeat
          first
            | exact strContains_append_right _ (strContains_self "None")
            | apply strContains_append_left
      · rw [hr]
        simp only [List.isEmpty_nil, if_true]
        repeat
          first
            | exact strContains_append_right _ (strContains_self "None")
            | apply strContains_append_left
    have hJ : strContains "None"
        (strJoin ((mas.enumFrom 1).map fun p => aggAnalysisBlock p.1 p.2)) = true :=
      strContains_strJoin (List.mem_map.mpr ⟨(i, a), hi, rfl⟩) hblock
    unfold aggPrompt
    repeat
      first
        | exact strContains_append_right _ hJ
        | apply strContains_append_left
  · intro fmt ma pc ht
    have hA : ∃ A : String, A =
        "Based on the following market analysis, provide investment recommendations:\n\n"
          ++ ("MARKET ANALYSIS:\n"
          ++ ("Conditions: "
          ++ (ma.conditions
          ++ "\n"))) := ⟨_, rfl⟩
    obtain ⟨A, hAdef⟩ := hA
    have hB : ∃ B : String, B =
        "Risk Factors: "
          ++ (pyJoin ", " ma.risk_factors
          ++ ("\n"
          ++ ("Summary: "
          ++ (ma.summary
          ++ ("\n\n"
          ++ (portfolioSection fmt "CURRENT PORTFOLIO:\n" pc
          ++ ("Provide specific recommendations including: "
          ++ ("1) Overall action type (rebalance, hold, diversify, increase allocation, etc.), "
          ++ ("2) Confidence level (0.0 to 1.0), "
          ++ ("3) Specific suggested actions for each asset (type: increase/decrease/hold/add/remove, symbol, rationale), "
          ++ "4) A summary of the recommendation rationale.")))))))))) := ⟨_, rfl⟩
    obtain ⟨B, hBdef⟩ := hB
    refine ⟨A, B, ?_⟩
    rw [hAdef, hBdef]
    unfold recommendationPrompt
    rw [ht]
    simp only [pyJoin, String.append_empty, String.append_assoc]
  · intro fmt ma pc hr
    have hA : ∃ A : String, A =
        "Based on the following market analysis, provide investment recommendations:\n\n"
          ++ ("MARKET ANALYSIS:\n"
          ++ ("Conditions: "
          ++ (ma.conditions
          ++ ("\n"
          ++ ("Trends: "
          ++ (pyJoin ", " ma.trends
          ++ "\n")))))) := ⟨_, rfl⟩
    obtain ⟨A, hAdef⟩ := hA
    have hB : ∃ B : String, B =
        "Summary: "
          ++ (ma.summary
          ++ ("\n\n"
          ++ (portfolioSection fmt "CURRENT PORTFOLIO:\n" pc
          ++ ("Provide specific recommendations including: "
          ++ ("1) Overall action type (rebalance, hold, diversify, increase allocation, etc.), "
          ++ ("2) Confidence level (0.0 to 1.0), "
          ++ ("3) Specific suggested actions for each asset (type: increase/decrease/hold/add/remove, symbol, rationale), "
          ++ "4) A summary of the recommendation rationale."))))))) := ⟨_, rfl⟩
    obtain ⟨B, hBdef⟩ := hB
    refine ⟨A, B, ?_⟩
    rw [hAdef, hBdef]
    unfold recommendationPrompt
    rw [hr]
    simp only [pyJoin, String.append_empty, String.append_assoc]

/-- C6 amended witness: the aggregation prompt over one empty-trends
analysis contains `"None"`, and the recommendation prompt for the same
analysis renders both fields empty. -/
theorem claim_C6_amended_witness :
    strContains "None" (aggPrompt fmt0 [ma0] [rec0] none) = true
      ∧ (∃ A B, recommendationPrompt fmt0 ma0 none = A ++ ("Trends: " ++ ("\n" ++ B)))
      ∧ (∃ A B, recommendationPrompt fmt0 ma0 none =
          A ++ ("Risk Factors: " ++ ("\n" ++ B))) :=
  ⟨claim_C6_amended.1 fmt0 [ma0] [rec0] none ma0 (List.mem_cons_self _ _) (Or.inl rfl),
   claim_C6_amended.2.1 fmt0 ma0 none rfl,
   claim_C6_amended.2.2 fmt0 ma0 none rfl⟩

end Networth
